import Mathlib

/-!
Verification of the aiohttp client tracing subsystem (`aiohttp/tracing.py`):
the `Signal` listener chains, the `TraceConfig` registry of sixteen signals,
the per-attempt `Trace` dispatcher and the sixteen immutable payload records.

The `Signal` class itself is imported from the `aiosignal` package
(tracing.py line 4) and its implementation is not part of this repository,
so it is modelled from the specification text (spec §3, §4.1): an ordered,
appendable list of listener callables with an open/frozen two-state
lifecycle, sequential in-order dispatch, and fail-fast exception
propagation.  Everything else (payload records, `TraceConfig`, `Trace`) is
embedded directly from `tracing.py`.

Python effects are made explicit: a listener is a function returning
`Except ε Unit` (normal completion or a raised exception `e : ε`); dispatch
returns the ordered list of listener invocations it performed together with
an outcome.  Sequential awaiting ("await each listener to completion before
invoking the next") is modelled by the sequential recursion of
`dispatchChain`: the tail of the chain is only examined after the head
listener has returned normally.
-/

/-- Modelled from the spec: the error raised when the freeze barrier is
violated — `append` after freeze, or `send` before freeze (spec §7;
the `Signal` class raising it is the `aiosignal` import at tracing.py
line 4, not part of this repository). -/
inductive ConfigurationError where
  | configurationError
deriving DecidableEq

/-- Modelled from the spec: a `Signal` (the `aiosignal` import at
tracing.py line 4; its implementation is not part of this repository) is an
ordered, appendable list of listener callables with two states, open
(`frozen = false`, listeners may be added) and frozen (`frozen = true`,
immutable and dispatch-eligible).  A listener is called with
(owner, context, payload) and either completes normally or raises an
exception of type `ε`. -/
structure Signal (O C P ε : Type) where
  listeners : List (O → C → P → Except ε Unit)
  frozen : Bool

/-- Modelled from the spec: a signal is created open, alongside its
TraceConfig, with no listeners (spec §3). -/
def Signal.new {O C P ε : Type} : Signal O C P ε :=
  { listeners := [], frozen := false }

/-- Modelled from the spec: `append(listener)` adds a listener to the end
of the sequence; it fails with `ConfigurationError` if the signal is
already frozen (spec §4.1). -/
def Signal.append {O C P ε : Type} (s : Signal O C P ε)
    (l : O → C → P → Except ε Unit) :
    Except ConfigurationError (Signal O C P ε) :=
  if s.frozen then
    Except.error ConfigurationError.configurationError
  else
    Except.ok { listeners := s.listeners ++ [l], frozen := false }

/-- Modelled from the spec: `freeze()` transitions the signal to the
frozen state; it never un-freezes and leaves the listener sequence
untouched (spec §4.1). -/
def Signal.freeze {O C P ε : Type} (s : Signal O C P ε) : Signal O C P ε :=
  { listeners := s.listeners, frozen := true }

/-- One record per listener invocation during a dispatch: the listener
that was called and the (owner, context, payload) arguments it observed. -/
structure Invocation (O C P ε : Type) where
  listener : O → C → P → Except ε Unit
  owner : O
  ctx : C
  payload : P

/-- How a `send` call ended: all listeners completed normally, the signal
was not frozen (ConfigurationError, dispatch never started), or some
listener raised `e` and `e` propagated out of `send` unchanged. -/
inductive SendOutcome (ε : Type) where
  | success
  | configurationError
  | listenerRaised (e : ε)

/-- The observable behaviour of one `send` call: the listener invocations
it performed, in order, and its outcome. -/
structure SendResult (O C P ε : Type) where
  invoked : List (Invocation O C P ε)
  outcome : SendOutcome ε

/-- Modelled from the spec: the sequential dispatch loop of
`Signal.send` (spec §4.1, §9 "ordered async fan-out").  Each listener is
awaited to completion before the next is examined; on the first raised
exception the rest of the chain is not invoked and the exception is
reported.  Returns the invocations performed, in order, together with the
first raised exception if any. -/
def dispatchChain {O C P ε : Type} (owner : O) (ctx : C) (payload : P) :
    List (O → C → P → Except ε Unit) →
      List (Invocation O C P ε) × Option ε
  | [] => ([], none)
  | l :: ls =>
    match l owner ctx payload with
    | Except.ok _ =>
      let rest := dispatchChain owner ctx payload ls
      (⟨l, owner, ctx, payload⟩ :: rest.1, rest.2)
    | Except.error e => ([⟨l, owner, ctx, payload⟩], some e)

/-- Modelled from the spec: `send(owner, context, payload)` requires the
signal to be frozen (otherwise ConfigurationError and no listener is
invoked); when frozen it invokes every listener strictly in registration
order, awaiting each to completion before invoking the next, and if a
listener raises, the remaining listeners are not invoked and the exception
surfaces to the caller of `send` (spec §4.1). -/
def Signal.send {O C P ε : Type} (s : Signal O C P ε)
    (owner : O) (ctx : C) (payload : P) : SendResult O C P ε :=
  if s.frozen then
    match dispatchChain owner ctx payload s.listeners with
    | (inv, none) => { invoked := inv, outcome := SendOutcome.success }
    | (inv, some e) => { invoked := inv, outcome := SendOutcome.listenerRaised e }
  else
    { invoked := [], outcome := SendOutcome.configurationError }

/-! ## Payload records (tracing.py lines 214–331)

One frozen dataclass per event kind; fields exactly as in the source.
`method` and `host` are Python `str`; `url`, `headers`, `chunk`,
`response` and `exception` keep their source types abstract as the type
parameters `Url`, `Headers`, `Chunk`, `Response`, `Exn`. -/

/-- Parameters sent by the on_request_start signal (tracing.py 214–220). -/
structure TraceRequestStartParams (Url Headers : Type) where
  method : String
  url : Url
  headers : Headers

/-- Parameters sent by the on_request_chunk_sent signal (tracing.py 223–229). -/
structure TraceRequestChunkSentParams (Url Chunk : Type) where
  method : String
  url : Url
  chunk : Chunk

/-- Parameters sent by the on_response_chunk_received signal (tracing.py 232–238). -/
structure TraceResponseChunkReceivedParams (Url Chunk : Type) where
  method : String
  url : Url
  chunk : Chunk

/-- Parameters sent by the on_request_end signal (tracing.py 241–248). -/
structure TraceRequestEndParams (Url Headers Response : Type) where
  method : String
  url : Url
  headers : Headers
  response : Response

/-- Parameters sent by the on_request_exception signal (tracing.py 251–258). -/
structure TraceRequestExceptionParams (Url Headers Exn : Type) where
  method : String
  url : Url
  headers : Headers
  exception : Exn

/-- Parameters sent by the on_request_redirect signal (tracing.py 261–268). -/
structure TraceRequestRedirectParams (Url Headers Response : Type) where
  method : String
  url : Url
  headers : Headers
  response : Response

/-- Parameters sent by the on_connection_queued_start signal (tracing.py 271–273): no fields. -/
structure TraceConnectionQueuedStartParams
deriving DecidableEq

/-- Parameters sent by the on_connection_queued_end signal (tracing.py 276–278): no fields. -/
structure TraceConnectionQueuedEndParams
deriving DecidableEq

/-- Parameters sent by the on_connection_create_start signal (tracing.py 281–283): no fields. -/
structure TraceConnectionCreateStartParams
deriving DecidableEq

/-- Parameters sent by the on_connection_create_end signal (tracing.py 286–288): no fields. -/
structure TraceConnectionCreateEndParams
deriving DecidableEq

/-- Parameters sent by the on_connection_reuseconn signal (tracing.py 291–293): no fields. -/
structure TraceConnectionReuseconnParams
deriving DecidableEq

/-- Parameters sent by the on_dns_resolvehost_start signal (tracing.py 296–300). -/
structure TraceDnsResolveHostStartParams where
  host : String

/-- Parameters sent by the on_dns_resolvehost_end signal (tracing.py 303–307). -/
structure TraceDnsResolveHostEndParams where
  host : String

/-- Parameters sent by the on_dns_cache_hit signal (tracing.py 310–314). -/
structure TraceDnsCacheHitParams where
  host : String

/-- Parameters sent by the on_dns_cache_miss signal (tracing.py 317–321). -/
structure TraceDnsCacheMissParams where
  host : String

/-- Parameters sent by the on_request_headers_sent signal (tracing.py 324–330). -/
structure TraceRequestHeadersSentParams (Url Headers : Type) where
  method : String
  url : Url
  headers : Headers

/-! ## TraceConfig (tracing.py lines 44–211)

`Session` is the `ClientSession` owner passed to `send`, `Ctx` the
user-chosen context type, `ε` the listener exception type, and `A` the
Python `Any` type of the per-request seed value `trace_request_ctx`
(`Option A` with `none` standing for Python `None`).  The context factory
is called with keyword arguments, modelled as an association list of
keyword names to values. -/

/-- The sixteen signals owned by a `TraceConfig`, one per event kind, plus
the stored context factory (tracing.py 51–101). -/
structure TraceConfig (Session Ctx Url Headers Chunk Response Exn ε A : Type) where
  _on_request_start :
    Signal Session Ctx (TraceRequestStartParams Url Headers) ε
  _on_request_chunk_sent :
    Signal Session Ctx (TraceRequestChunkSentParams Url Chunk) ε
  _on_response_chunk_received :
    Signal Session Ctx (TraceResponseChunkReceivedParams Url Chunk) ε
  _on_request_end :
    Signal Session Ctx (TraceRequestEndParams Url Headers Response) ε
  _on_request_exception :
    Signal Session Ctx (TraceRequestExceptionParams Url Headers Exn) ε
  _on_request_redirect :
    Signal Session Ctx (TraceRequestRedirectParams Url Headers Response) ε
  _on_connection_queued_start :
    Signal Session Ctx TraceConnectionQueuedStartParams ε
  _on_connection_queued_end :
    Signal Session Ctx TraceConnectionQueuedEndParams ε
  _on_connection_create_start :
    Signal Session Ctx TraceConnectionCreateStartParams ε
  _on_connection_create_end :
    Signal Session Ctx TraceConnectionCreateEndParams ε
  _on_connection_reuseconn :
    Signal Session Ctx TraceConnectionReuseconnParams ε
  _on_dns_resolvehost_start :
    Signal Session Ctx TraceDnsResolveHostStartParams ε
  _on_dns_resolvehost_end :
    Signal Session Ctx TraceDnsResolveHostEndParams ε
  _on_dns_cache_hit :
    Signal Session Ctx TraceDnsCacheHitParams ε
  _on_dns_cache_miss :
    Signal Session Ctx TraceDnsCacheMissParams ε
  _on_request_headers_sent :
    Signal Session Ctx (TraceRequestHeadersSentParams Url Headers) ε
  _trace_config_ctx_factory : List (String × Option A) → Ctx

variable {Session Ctx Url Headers Chunk Response Exn ε A : Type}

/-- `TraceConfig.__init__` (tracing.py 51–101): each of the sixteen
signals is created fresh (open, empty) and the context factory is
stored. -/
def TraceConfig.init
    (trace_config_ctx_factory : List (String × Option A) → Ctx) :
    TraceConfig Session Ctx Url Headers Chunk Response Exn ε A where
  _on_request_start := Signal.new
  _on_request_chunk_sent := Signal.new
  _on_response_chunk_received := Signal.new
  _on_request_end := Signal.new
  _on_request_exception := Signal.new
  _on_request_redirect := Signal.new
  _on_connection_queued_start := Signal.new
  _on_connection_queued_end := Signal.new
  _on_connection_create_start := Signal.new
  _on_connection_create_end := Signal.new
  _on_connection_reuseconn := Signal.new
  _on_dns_resolvehost_start := Signal.new
  _on_dns_resolvehost_end := Signal.new
  _on_dns_cache_hit := Signal.new
  _on_dns_cache_miss := Signal.new
  _on_request_headers_sent := Signal.new
  _trace_config_ctx_factory := trace_config_ctx_factory

/-- `TraceConfig.trace_config_ctx` (tracing.py 103–105): calls the stored
factory with the single keyword argument `trace_request_ctx` bound to the
given seed (`none` models the Python default `None` used when the caller
omits the argument) and returns whatever the factory returns. -/
def TraceConfig.trace_config_ctx
    (tc : TraceConfig Session Ctx Url Headers Chunk Response Exn ε A)
    (trace_request_ctx : Option A) : Ctx :=
  tc._trace_config_ctx_factory [("trace_request_ctx", trace_request_ctx)]

/-- `TraceConfig.freeze` (tracing.py 107–123): freezes each of the sixteen
owned signals in turn. -/
def TraceConfig.freeze
    (tc : TraceConfig Session Ctx Url Headers Chunk Response Exn ε A) :
    TraceConfig Session Ctx Url Headers Chunk Response Exn ε A where
  _on_request_start := tc._on_request_start.freeze
  _on_request_chunk_sent := tc._on_request_chunk_sent.freeze
  _on_response_chunk_received := tc._on_response_chunk_received.freeze
  _on_request_end := tc._on_request_end.freeze
  _on_request_exception := tc._on_request_exception.freeze
  _on_request_redirect := tc._on_request_redirect.freeze
  _on_connection_queued_start := tc._on_connection_queued_start.freeze
  _on_connection_queued_end := tc._on_connection_queued_end.freeze
  _on_connection_create_start := tc._on_connection_create_start.freeze
  _on_connection_create_end := tc._on_connection_create_end.freeze
  _on_connection_reuseconn := tc._on_connection_reuseconn.freeze
  _on_dns_resolvehost_start := tc._on_dns_resolvehost_start.freeze
  _on_dns_resolvehost_end := tc._on_dns_resolvehost_end.freeze
  _on_dns_cache_hit := tc._on_dns_cache_hit.freeze
  _on_dns_cache_miss := tc._on_dns_cache_miss.freeze
  _on_request_headers_sent := tc._on_request_headers_sent.freeze
  _trace_config_ctx_factory := tc._trace_config_ctx_factory

/-- Read-only accessor `on_request_start` (tracing.py 125–127). -/
def TraceConfig.on_request_start
    (tc : TraceConfig Session Ctx Url Headers Chunk Response Exn ε A) :=
  tc._on_request_start

/-- Read-only accessor `on_request_chunk_sent` (tracing.py 129–133). -/
def TraceConfig.on_request_chunk_sent
    (tc : TraceConfig Session Ctx Url Headers Chunk Response Exn ε A) :=
  tc._on_request_chunk_sent

/-- Read-only accessor `on_response_chunk_received` (tracing.py 135–139). -/
def TraceConfig.on_response_chunk_received
    (tc : TraceConfig Session Ctx Url Headers Chunk Response Exn ε A) :=
  tc._on_response_chunk_received

/-- Read-only accessor `on_request_end` (tracing.py 141–143). -/
def TraceConfig.on_request_end
    (tc : TraceConfig Session Ctx Url Headers Chunk Response Exn ε A) :=
  tc._on_request_end

/-- Read-only accessor `on_request_exception` (tracing.py 145–149). -/
def TraceConfig.on_request_exception
    (tc : TraceConfig Session Ctx Url Headers Chunk Response Exn ε A) :=
  tc._on_request_exception

/-- Read-only accessor `on_request_redirect` (tracing.py 151–155). -/
def TraceConfig.on_request_redirect
    (tc : TraceConfig Session Ctx Url Headers Chunk Response Exn ε A) :=
  tc._on_request_redirect

/-- Read-only accessor `on_connection_queued_start` (tracing.py 157–161). -/
def TraceConfig.on_connection_queued_start
    (tc : TraceConfig Session Ctx Url Headers Chunk Response Exn ε A) :=
  tc._on_connection_queued_start

/-- Read-only accessor `on_connection_queued_end` (tracing.py 163–167). -/
def TraceConfig.on_connection_queued_end
    (tc : TraceConfig Session Ctx Url Headers Chunk Response Exn ε A) :=
  tc._on_connection_queued_end

/-- Read-only accessor `on_connection_create_start` (tracing.py 169–173). -/
def TraceConfig.on_connection_create_start
    (tc : TraceConfig Session Ctx Url Headers Chunk Response Exn ε A) :=
  tc._on_connection_create_start

/-- Read-only accessor `on_connection_create_end` (tracing.py 175–179). -/
def TraceConfig.on_connection_create_end
    (tc : TraceConfig Session Ctx Url Headers Chunk Response Exn ε A) :=
  tc._on_connection_create_end

/-- Read-only accessor `on_connection_reuseconn` (tracing.py 181–185). -/
def TraceConfig.on_connection_reuseconn
    (tc : TraceConfig Session Ctx Url Headers Chunk Response Exn ε A) :=
  tc._on_connection_reuseconn

/-- Read-only accessor `on_dns_resolvehost_start` (tracing.py 187–191). -/
def TraceConfig.on_dns_resolvehost_start
    (tc : TraceConfig Session Ctx Url Headers Chunk Response Exn ε A) :=
  tc._on_dns_resolvehost_start

/-- Read-only accessor `on_dns_resolvehost_end` (tracing.py 193–197). -/
def TraceConfig.on_dns_resolvehost_end
    (tc : TraceConfig Session Ctx Url Headers Chunk Response Exn ε A) :=
  tc._on_dns_resolvehost_end

/-- Read-only accessor `on_dns_cache_hit` (tracing.py 199–201). -/
def TraceConfig.on_dns_cache_hit
    (tc : TraceConfig Session Ctx Url Headers Chunk Response Exn ε A) :=
  tc._on_dns_cache_hit

/-- Read-only accessor `on_dns_cache_miss` (tracing.py 203–205). -/
def TraceConfig.on_dns_cache_miss
    (tc : TraceConfig Session Ctx Url Headers Chunk Response Exn ε A) :=
  tc._on_dns_cache_miss

/-- Read-only accessor `on_request_headers_sent` (tracing.py 207–211). -/
def TraceConfig.on_request_headers_sent
    (tc : TraceConfig Session Ctx Url Headers Chunk Response Exn ε A) :=
  tc._on_request_headers_sent

/-! ## SimpleNamespace (the default context factory, tracing.py line 52)

`types.SimpleNamespace` called with keyword arguments yields a namespace
object whose attributes are exactly those keyword arguments. -/

/-- Python `types.SimpleNamespace` as used for contexts: a record of
attribute names to values, exactly the keyword arguments it was
constructed with.  It is the default value of `trace_config_ctx_factory`
in `TraceConfig.__init__` (tracing.py line 52). -/
structure SimpleNamespace (V : Type) where
  fields : List (String × V)
deriving DecidableEq

/-- Calling `SimpleNamespace(**kwargs)`: the resulting namespace holds
exactly the keyword arguments as its attributes. -/
def SimpleNamespace.ofKwargs {V : Type} (kwargs : List (String × V)) :
    SimpleNamespace V :=
  { fields := kwargs }

/-! ## Trace (tracing.py lines 333–467) -/

/-- `Trace.__init__` (tracing.py 340–348): holds the trace config, the
context instance for this request attempt, and the owning session. -/
structure Trace (Session Ctx Url Headers Chunk Response Exn ε A : Type) where
  _trace_config : TraceConfig Session Ctx Url Headers Chunk Response Exn ε A
  _trace_config_ctx : Ctx
  _session : Session

variable {Session Ctx Url Headers Chunk Response Exn ε A : Type}

/-- `Trace.send_request_start` (tracing.py 350–357): builds a
`TraceRequestStartParams` from its arguments and forwards it, with the
session and the stored context, to `on_request_start.send`. -/
def Trace.send_request_start
    (t : Trace Session Ctx Url Headers Chunk Response Exn ε A)
    (method : String) (url : Url) (headers : Headers) :
    SendResult Session Ctx (TraceRequestStartParams Url Headers) ε :=
  t._trace_config.on_request_start.send t._session t._trace_config_ctx
    (TraceRequestStartParams.mk method url headers)

/-- `Trace.send_request_chunk_sent` (tracing.py 359–366). -/
def Trace.send_request_chunk_sent
    (t : Trace Session Ctx Url Headers Chunk Response Exn ε A)
    (method : String) (url : Url) (chunk : Chunk) :
    SendResult Session Ctx (TraceRequestChunkSentParams Url Chunk) ε :=
  t._trace_config.on_request_chunk_sent.send t._session t._trace_config_ctx
    (TraceRequestChunkSentParams.mk method url chunk)

/-- `Trace.send_response_chunk_received` (tracing.py 368–375). -/
def Trace.send_response_chunk_received
    (t : Trace Session Ctx Url Headers Chunk Response Exn ε A)
    (method : String) (url : Url) (chunk : Chunk) :
    SendResult Session Ctx (TraceResponseChunkReceivedParams Url Chunk) ε :=
  t._trace_config.on_response_chunk_received.send t._session t._trace_config_ctx
    (TraceResponseChunkReceivedParams.mk method url chunk)

/-- `Trace.send_request_end` (tracing.py 377–388). -/
def Trace.send_request_end
    (t : Trace Session Ctx Url Headers Chunk Response Exn ε A)
    (method : String) (url : Url) (headers : Headers) (response : Response) :
    SendResult Session Ctx (TraceRequestEndParams Url Headers Response) ε :=
  t._trace_config.on_request_end.send t._session t._trace_config_ctx
    (TraceRequestEndParams.mk method url headers response)

/-- `Trace.send_request_exception` (tracing.py 390–401). -/
def Trace.send_request_exception
    (t : Trace Session Ctx Url Headers Chunk Response Exn ε A)
    (method : String) (url : Url) (headers : Headers) (exception : Exn) :
    SendResult Session Ctx (TraceRequestExceptionParams Url Headers Exn) ε :=
  t._trace_config.on_request_exception.send t._session t._trace_config_ctx
    (TraceRequestExceptionParams.mk method url headers exception)

/-- `Trace.send_request_redirect` (tracing.py 403–414); note the source
reaches the signal through the attribute `_on_request_redirect` directly
rather than through the property. -/
def Trace.send_request_redirect
    (t : Trace Session Ctx Url Headers Chunk Response Exn ε A)
    (method : String) (url : Url) (headers : Headers) (response : Response) :
    SendResult Session Ctx (TraceRequestRedirectParams Url Headers Response) ε :=
  t._trace_config._on_request_redirect.send t._session t._trace_config_ctx
    (TraceRequestRedirectParams.mk method url headers response)

/-- `Trace.send_connection_queued_start` (tracing.py 416–419). -/
def Trace.send_connection_queued_start
    (t : Trace Session Ctx Url Headers Chunk Response Exn ε A) :
    SendResult Session Ctx TraceConnectionQueuedStartParams ε :=
  t._trace_config.on_connection_queued_start.send t._session t._trace_config_ctx
    TraceConnectionQueuedStartParams.mk

/-- `Trace.send_connection_queued_end` (tracing.py 421–424). -/
def Trace.send_connection_queued_end
    (t : Trace Session Ctx Url Headers Chunk Response Exn ε A) :
    SendResult Session Ctx TraceConnectionQueuedEndParams ε :=
  t._trace_config.on_connection_queued_end.send t._session t._trace_config_ctx
    TraceConnectionQueuedEndParams.mk

/-- `Trace.send_connection_create_start` (tracing.py 426–429). -/
def Trace.send_connection_create_start
    (t : Trace Session Ctx Url Headers Chunk Response Exn ε A) :
    SendResult Session Ctx TraceConnectionCreateStartParams ε :=
  t._trace_config.on_connection_create_start.send t._session t._trace_config_ctx
    TraceConnectionCreateStartParams.mk

/-- `Trace.send_connection_create_end` (tracing.py 431–434). -/
def Trace.send_connection_create_end
    (t : Trace Session Ctx Url Headers Chunk Response Exn ε A) :
    SendResult Session Ctx TraceConnectionCreateEndParams ε :=
  t._trace_config.on_connection_create_end.send t._session t._trace_config_ctx
    TraceConnectionCreateEndParams.mk

/-- `Trace.send_connection_reuseconn` (tracing.py 436–439). -/
def Trace.send_connection_reuseconn
    (t : Trace Session Ctx Url Headers Chunk Response Exn ε A) :
    SendResult Session Ctx TraceConnectionReuseconnParams ε :=
  t._trace_config.on_connection_reuseconn.send t._session t._trace_config_ctx
    TraceConnectionReuseconnParams.mk

/-- `Trace.send_dns_resolvehost_start` (tracing.py 441–444). -/
def Trace.send_dns_resolvehost_start
    (t : Trace Session Ctx Url Headers Chunk Response Exn ε A) (host : String) :
    SendResult Session Ctx TraceDnsResolveHostStartParams ε :=
  t._trace_config.on_dns_resolvehost_start.send t._session t._trace_config_ctx
    (TraceDnsResolveHostStartParams.mk host)

/-- `Trace.send_dns_resolvehost_end` (tracing.py 446–449). -/
def Trace.send_dns_resolvehost_end
    (t : Trace Session Ctx Url Headers Chunk Response Exn ε A) (host : String) :
    SendResult Session Ctx TraceDnsResolveHostEndParams ε :=
  t._trace_config.on_dns_resolvehost_end.send t._session t._trace_config_ctx
    (TraceDnsResolveHostEndParams.mk host)

/-- `Trace.send_dns_cache_hit` (tracing.py 451–454). -/
def Trace.send_dns_cache_hit
    (t : Trace Session Ctx Url Headers Chunk Response Exn ε A) (host : String) :
    SendResult Session Ctx TraceDnsCacheHitParams ε :=
  t._trace_config.on_dns_cache_hit.send t._session t._trace_config_ctx
    (TraceDnsCacheHitParams.mk host)

/-- `Trace.send_dns_cache_miss` (tracing.py 456–459). -/
def Trace.send_dns_cache_miss
    (t : Trace Session Ctx Url Headers Chunk Response Exn ε A) (host : String) :
    SendResult Session Ctx TraceDnsCacheMissParams ε :=
  t._trace_config.on_dns_cache_miss.send t._session t._trace_config_ctx
    (TraceDnsCacheMissParams.mk host)

/-- `Trace.send_request_headers` (tracing.py 461–467); note the source
reaches the signal through the attribute `_on_request_headers_sent`
directly rather than through the property. -/
def Trace.send_request_headers
    (t : Trace Session Ctx Url Headers Chunk Response Exn ε A)
    (method : String) (url : Url) (headers : Headers) :
    SendResult Session Ctx (TraceRequestHeadersSentParams Url Headers) ε :=
  t._trace_config._on_request_headers_sent.send t._session t._trace_config_ctx
    (TraceRequestHeadersSentParams.mk method url headers)

/-! ## The method-to-signal dispatch table (tracing.py 350–467)

Each of the sixteen `Trace.send_*` methods reads exactly one signal
attribute of its `TraceConfig`; `sendMethodSignal` transcribes that
attribute access, arm by arm, from the body of each method. -/

/-- The sixteen `send_*` methods of `Trace` (tracing.py 350–467). -/
inductive TraceSendMethod where
  | send_request_start
  | send_request_chunk_sent
  | send_response_chunk_received
  | send_request_end
  | send_request_exception
  | send_request_redirect
  | send_connection_queued_start
  | send_connection_queued_end
  | send_connection_create_start
  | send_connection_create_end
  | send_connection_reuseconn
  | send_dns_resolvehost_start
  | send_dns_resolvehost_end
  | send_dns_cache_hit
  | send_dns_cache_miss
  | send_request_headers
deriving DecidableEq

/-- The sixteen signal attributes of `TraceConfig` (tracing.py 54–99). -/
inductive TraceSignalName where
  | on_request_start
  | on_request_chunk_sent
  | on_response_chunk_received
  | on_request_end
  | on_request_exception
  | on_request_redirect
  | on_connection_queued_start
  | on_connection_queued_end
  | on_connection_create_start
  | on_connection_create_end
  | on_connection_reuseconn
  | on_dns_resolvehost_start
  | on_dns_resolvehost_end
  | on_dns_cache_hit
  | on_dns_cache_miss
  | on_request_headers_sent
deriving DecidableEq

/-- Which signal of the `TraceConfig` each `Trace.send_*` method calls
`send` on, transcribed from the attribute access in each method body
(tracing.py 353, 362, 371, 384, 397, 410, 417, 422, 427, 432, 437, 442,
447, 452, 457, 464). -/
def sendMethodSignal : TraceSendMethod → TraceSignalName
  | TraceSendMethod.send_request_start => TraceSignalName.on_request_start
  | TraceSendMethod.send_request_chunk_sent => TraceSignalName.on_request_chunk_sent
  | TraceSendMethod.send_response_chunk_received => TraceSignalName.on_response_chunk_received
  | TraceSendMethod.send_request_end => TraceSignalName.on_request_end
  | TraceSendMethod.send_request_exception => TraceSignalName.on_request_exception
  | TraceSendMethod.send_request_redirect => TraceSignalName.on_request_redirect
  | TraceSendMethod.send_connection_queued_start => TraceSignalName.on_connection_queued_start
  | TraceSendMethod.send_connection_queued_end => TraceSignalName.on_connection_queued_end
  | TraceSendMethod.send_connection_create_start => TraceSignalName.on_connection_create_start
  | TraceSendMethod.send_connection_create_end => TraceSignalName.on_connection_create_end
  | TraceSendMethod.send_connection_reuseconn => TraceSignalName.on_connection_reuseconn
  | TraceSendMethod.send_dns_resolvehost_start => TraceSignalName.on_dns_resolvehost_start
  | TraceSendMethod.send_dns_resolvehost_end => TraceSignalName.on_dns_resolvehost_end
  | TraceSendMethod.send_dns_cache_hit => TraceSignalName.on_dns_cache_hit
  | TraceSendMethod.send_dns_cache_miss => TraceSignalName.on_dns_cache_miss
  | TraceSendMethod.send_request_headers => TraceSignalName.on_request_headers_sent

/-- The inverse reading of the same dispatch table: for each signal
attribute, the one `send_*` method that calls `send` on it. -/
def signalSendMethod : TraceSignalName → TraceSendMethod
  | TraceSignalName.on_request_start => TraceSendMethod.send_request_start
  | TraceSignalName.on_request_chunk_sent => TraceSendMethod.send_request_chunk_sent
  | TraceSignalName.on_response_chunk_received => TraceSendMethod.send_response_chunk_received
  | TraceSignalName.on_request_end => TraceSendMethod.send_request_end
  | TraceSignalName.on_request_exception => TraceSendMethod.send_request_exception
  | TraceSignalName.on_request_redirect => TraceSendMethod.send_request_redirect
  | TraceSignalName.on_connection_queued_start => TraceSendMethod.send_connection_queued_start
  | TraceSignalName.on_connection_queued_end => TraceSendMethod.send_connection_queued_end
  | TraceSignalName.on_connection_create_start => TraceSendMethod.send_connection_create_start
  | TraceSignalName.on_connection_create_end => TraceSendMethod.send_connection_create_end
  | TraceSignalName.on_connection_reuseconn => TraceSendMethod.send_connection_reuseconn
  | TraceSignalName.on_dns_resolvehost_start => TraceSendMethod.send_dns_resolvehost_start
  | TraceSignalName.on_dns_resolvehost_end => TraceSendMethod.send_dns_resolvehost_end
  | TraceSignalName.on_dns_cache_hit => TraceSendMethod.send_dns_cache_hit
  | TraceSignalName.on_dns_cache_miss => TraceSendMethod.send_dns_cache_miss
  | TraceSignalName.on_request_headers_sent => TraceSendMethod.send_request_headers

/-! ## Heap-explicit view of the context factory call (tracing.py 103–105)

To speak about object identity ("a new, independent context instance") the
Python heap is threaded explicitly as an allocation counter: an allocating
factory consumes a heap state and returns the next heap state together
with the constructed object. -/

/-- The same single call of tracing.py line 105
(`self._trace_config_ctx_factory(trace_request_ctx=trace_request_ctx)`)
for a factory that allocates, with the heap threaded explicitly. -/
def trace_config_ctxAlloc {H Ctx A : Type}
    (factory : H → List (String × Option A) → H × Ctx)
    (heap : H) (trace_request_ctx : Option A) : H × Ctx :=
  factory heap [("trace_request_ctx", trace_request_ctx)]

/-- A factory that constructs a fresh object on every call: the heap is an
allocation counter, and the object built is tagged with a fresh identity
(its address) alongside the keyword arguments it received. -/
def freshFactory {A : Type} (heap : Nat)
    (kwargs : List (String × Option A)) :
    Nat × (Nat × List (String × Option A)) :=
  (heap + 1, (heap, kwargs))

/-! ## Dispatch lemmas -/

/-- When every listener in the chain completes normally, the dispatch loop
invokes each of them, in order, with the given arguments, and reports no
exception. -/
theorem dispatchChain_all_ok {O C P ε : Type} (o : O) (c : C) (p : P) :
    ∀ ls : List (O → C → P → Except ε Unit),
      (∀ l ∈ ls, l o c p = Except.ok ()) →
      dispatchChain o c p ls = (ls.map fun l => ⟨l, o, c, p⟩, none)
  | [], _ => rfl
  | l :: ls, hok => by
    have hl : l o c p = Except.ok () := hok l (List.mem_cons_self l ls)
    have ih := dispatchChain_all_ok o c p ls
      (fun x hx => hok x (List.mem_cons_of_mem l hx))
    simp [dispatchChain, hl, ih]

/-- When the listeners before `lf` complete normally and `lf` raises `e`,
the dispatch loop invokes exactly the prefix up to and including `lf`,
skips everything after `lf`, and reports `e`. -/
theorem dispatchChain_fail {O C P ε : Type} (o : O) (c : C) (p : P)
    (lf : O → C → P → Except ε Unit)
    (post : List (O → C → P → Except ε Unit)) (e : ε) :
    ∀ pre : List (O → C → P → Except ε Unit),
      (∀ l ∈ pre, l o c p = Except.ok ()) →
      lf o c p = Except.error e →
      dispatchChain o c p (pre ++ lf :: post) =
        ((pre.map fun l => ⟨l, o, c, p⟩) ++ [⟨lf, o, c, p⟩], some e)
  | [], _, hf => by simp [dispatchChain, hf]
  | l :: pre, hok, hf => by
    have hl : l o c p = Except.ok () := hok l (List.mem_cons_self l pre)
    have ih := dispatchChain_fail o c p lf post e pre
      (fun x hx => hok x (List.mem_cons_of_mem l hx)) hf
    simp [dispatchChain, hl, ih]

/-- Every invocation performed by the dispatch loop observed exactly the
(owner, context, payload) arguments of the loop. -/
theorem dispatchChain_observes {O C P ε : Type} (o : O) (c : C) (p : P) :
    ∀ ls : List (O → C → P → Except ε Unit),
      ∀ inv ∈ (dispatchChain o c p ls).1,
        inv.owner = o ∧ inv.ctx = c ∧ inv.payload = p
  | [], inv, hinv => by simp [dispatchChain] at hinv
  | l :: ls, inv, hinv => by
    have ih := dispatchChain_observes o c p ls
    rcases he : l o c p with u | e
    all_goals
      simp only [dispatchChain, he] at hinv
    case ok =>
      cases hinv with
      | head => exact ⟨rfl, rfl, rfl⟩
      | tail _ h => exact ih inv h
    case error =>
      cases hinv with
      | head => exact ⟨rfl, rfl, rfl⟩
      | tail _ h => cases h

/-- The invocations of a `send` call: none when the signal is not frozen,
otherwise exactly what the dispatch loop performed. -/
theorem Signal.send_invoked {O C P ε : Type} (s : Signal O C P ε)
    (o : O) (c : C) (p : P) :
    (s.send o c p).invoked =
      if s.frozen then (dispatchChain o c p s.listeners).1 else [] := by
  unfold Signal.send
  cases s.frozen
  case false => simp
  case true =>
    simp only [if_true]
    rcases hd : dispatchChain o c p s.listeners with ⟨inv, oe⟩
    cases oe <;> simp

/-- Every invocation performed by a `send` call observed exactly the
(owner, context, payload) arguments of that call. -/
theorem Signal.send_observes {O C P ε : Type} (s : Signal O C P ε)
    (o : O) (c : C) (p : P) :
    ∀ inv ∈ (s.send o c p).invoked,
      inv.owner = o ∧ inv.ctx = c ∧ inv.payload = p := by
  intro inv hinv
  rw [Signal.send_invoked] at hinv
  by_cases hf : s.frozen = true
  · rw [if_pos hf] at hinv
    exact dispatchChain_observes o c p s.listeners inv hinv
  · rw [if_neg hf] at hinv
    cases hinv

/-- A frozen signal whose listeners all complete normally invokes every
listener, in order, and succeeds. -/
theorem Signal.send_all_ok {O C P ε : Type} (s : Signal O C P ε)
    (o : O) (c : C) (p : P)
    (hf : s.frozen = true)
    (hok : ∀ l ∈ s.listeners, l o c p = Except.ok ()) :
    s.send o c p =
      { invoked := s.listeners.map fun l => ⟨l, o, c, p⟩,
        outcome := SendOutcome.success } := by
  unfold Signal.send
  rw [if_pos hf, dispatchChain_all_ok o c p s.listeners hok]

/-- A frozen signal whose listener chain is an all-normal prefix, a raising
listener, and a suffix invokes exactly the prefix and the raising listener
and reports the raised exception unchanged. -/
theorem Signal.send_fail {O C P ε : Type} (s : Signal O C P ε)
    (o : O) (c : C) (p : P)
    (pre post : List (O → C → P → Except ε Unit))
    (lf : O → C → P → Except ε Unit) (e : ε)
    (hf : s.frozen = true)
    (hls : s.listeners = pre ++ lf :: post)
    (hpre : ∀ l ∈ pre, l o c p = Except.ok ())
    (hfail : lf o c p = Except.error e) :
    s.send o c p =
      { invoked := (pre.map fun l => ⟨l, o, c, p⟩) ++ [⟨lf, o, c, p⟩],
        outcome := SendOutcome.listenerRaised e } := by
  unfold Signal.send
  rw [if_pos hf, hls, dispatchChain_fail o c p lf post e pre hpre hfail]

/-! ## Claim C1 -/

/-- C1: for every Signal and every sequence of listeners L1..Ln (n ≥ 0)
appended to it before freeze, every call to `send` invokes exactly those
listeners, each exactly once, in exactly registration order, awaiting each
listener to completion before invoking the next (the dispatch loop of
`dispatchChain` only reaches a listener after all earlier listeners have
returned normally).  The signal value is not modified by `send`, so the
same equations hold for every further call of `send`, no matter how many
times it is called. -/
theorem signal_send_order_invariant {O C P ε : Type} (s : Signal O C P ε)
    (o : O) (c : C) (p : P)
    (hfrozen : s.frozen = true)
    (hok : ∀ l ∈ s.listeners, l o c p = Except.ok ()) :
    (s.send o c p).invoked = s.listeners.map (fun l => ⟨l, o, c, p⟩) ∧
    (s.send o c p).invoked.map Invocation.listener = s.listeners ∧
    (s.send o c p).outcome = SendOutcome.success := by
  have h := Signal.send_all_ok s o c p hfrozen hok
  refine ⟨?_, ?_, ?_⟩ <;> rw [h]
  simp only [List.map_map]
  exact List.map_id s.listeners

/-- A listener on concrete types that completes normally. -/
def okListener : Unit → Nat → Nat → Except String Unit :=
  fun _ _ _ => Except.ok ()

/-- A concrete two-listener frozen signal. -/
def sigTwo : Signal Unit Nat Nat String :=
  { listeners := [okListener, okListener], frozen := true }

/-- C1 witness: the order invariant instantiated on `sigTwo` with a
concrete send. -/
theorem signal_send_order_invariant_witness :
    (sigTwo.send () 5 7).invoked = sigTwo.listeners.map (fun l => ⟨l, (), 5, 7⟩) ∧
    (sigTwo.send () 5 7).invoked.map Invocation.listener = sigTwo.listeners ∧
    (sigTwo.send () 5 7).outcome = SendOutcome.success :=
  signal_send_order_invariant sigTwo () 5 7 rfl (fun l hl => by
    cases hl with
    | head => rfl
    | tail _ h =>
      cases h with
      | head => rfl
      | tail _ h2 => cases h2)

/-! ## Claim C2 -/

/-- C2: for every Signal with registered listeners L1..Ln, if listener Li
raises an exception during a send, then listeners L(i+1)..Ln are not
invoked for that send (the invocation list stops at Li and does not touch
`post`), the dispatcher does not catch or transform the exception, and the
same exception `e` propagates out of the triggering `send_*` call
(`Trace.send_request_start` here, which returns the signal's send result
unchanged) to its caller. -/
theorem send_request_start_fail_fast
    {Session Ctx Url Headers Chunk Response Exn ε A : Type}
    (t : Trace Session Ctx Url Headers Chunk Response Exn ε A)
    (method : String) (url : Url) (headers : Headers)
    (pre post :
      List (Session → Ctx → TraceRequestStartParams Url Headers → Except ε Unit))
    (lf : Session → Ctx → TraceRequestStartParams Url Headers → Except ε Unit)
    (e : ε)
    (hfrozen : t._trace_config._on_request_start.frozen = true)
    (hls : t._trace_config._on_request_start.listeners = pre ++ lf :: post)
    (hpre : ∀ l ∈ pre,
      l t._session t._trace_config_ctx
        (TraceRequestStartParams.mk method url headers) = Except.ok ())
    (hfail : lf t._session t._trace_config_ctx
        (TraceRequestStartParams.mk method url headers) = Except.error e) :
    (t.send_request_start method url headers).invoked =
      (pre.map fun l =>
        ⟨l, t._session, t._trace_config_ctx,
          TraceRequestStartParams.mk method url headers⟩) ++
      [⟨lf, t._session, t._trace_config_ctx,
        TraceRequestStartParams.mk method url headers⟩] ∧
    (t.send_request_start method url headers).outcome =
      SendOutcome.listenerRaised e := by
  have h := Signal.send_fail t._trace_config._on_request_start
    t._session t._trace_config_ctx
    (TraceRequestStartParams.mk method url headers)
    pre post lf e hfrozen hls hpre hfail
  unfold Trace.send_request_start TraceConfig.on_request_start
  rw [h]
  exact ⟨rfl, rfl⟩

/-- A request-start listener on concrete types that completes normally. -/
def okStartListener :
    Unit → Nat → TraceRequestStartParams String String → Except String Unit :=
  fun _ _ _ => Except.ok ()

/-- A request-start listener on concrete types that raises. -/
def failListener :
    Unit → Nat → TraceRequestStartParams String String → Except String Unit :=
  fun _ _ _ => Except.error "boom"

/-- A concrete TraceConfig whose frozen request-start signal holds a
normal listener, then a raising listener, then another normal listener. -/
def tcFail : TraceConfig Unit Nat String String String String String String Unit :=
  { TraceConfig.init (fun _ => 0) with
    _on_request_start :=
      { listeners := [okStartListener, failListener, okStartListener],
        frozen := true } }

/-- A concrete Trace over `tcFail`. -/
def trFail : Trace Unit Nat String String String String String String Unit :=
  { _trace_config := tcFail, _trace_config_ctx := 3, _session := () }

/-- C2 witness: fail-fast propagation instantiated on `trFail` with a
concrete send, where the raising listener is the second of three. -/
theorem send_request_start_fail_fast_witness :
    (trFail.send_request_start "GET" "u" "h").invoked =
      ([okStartListener].map fun l =>
        ⟨l, (), 3, TraceRequestStartParams.mk "GET" "u" "h"⟩) ++
      [⟨failListener, (), 3, TraceRequestStartParams.mk "GET" "u" "h"⟩] ∧
    (trFail.send_request_start "GET" "u" "h").outcome =
      SendOutcome.listenerRaised "boom" :=
  send_request_start_fail_fast trFail "GET" "u" "h"
    [okStartListener] [okStartListener] failListener "boom" rfl rfl
    (fun l hl => by
      cases hl with
      | head => rfl
      | tail _ h => cases h)
    rfl

/-! ## Claim C3 -/

/-- C3: for every Signal, calling `append` after the signal has been
frozen fails with ConfigurationError; calling `send` before the signal has
been frozen fails with ConfigurationError and invokes no listener; and
calling `send` after freeze succeeds whenever no listener itself raises. -/
theorem signal_freeze_barrier {O C P ε : Type} (s : Signal O C P ε)
    (l : O → C → P → Except ε Unit) (o : O) (c : C) (p : P)
    (hopen : s.frozen = false)
    (hok : ∀ li ∈ s.listeners, li o c p = Except.ok ()) :
    s.freeze.append l = Except.error ConfigurationError.configurationError ∧
    s.send o c p = { invoked := [], outcome := SendOutcome.configurationError } ∧
    (s.freeze.send o c p).outcome = SendOutcome.success := by
  refine ⟨rfl, ?_, ?_⟩
  · simp [Signal.send, hopen]
  · rw [Signal.send_all_ok s.freeze o c p rfl hok]

/-- A concrete one-listener open signal. -/
def sigOpen : Signal Unit Nat Nat String :=
  { listeners := [okListener], frozen := false }

/-- C3 witness: the freeze barrier instantiated on `sigOpen` with a
concrete listener and send. -/
theorem signal_freeze_barrier_witness :
    sigOpen.freeze.append okListener =
      Except.error ConfigurationError.configurationError ∧
    sigOpen.send () 1 2 =
      { invoked := [], outcome := SendOutcome.configurationError } ∧
    (sigOpen.freeze.send () 1 2).outcome = SendOutcome.success :=
  signal_freeze_barrier sigOpen okListener () 1 2 rfl (fun li hli => by
    cases hli with
    | head => rfl
    | tail _ h => cases h)

/-! ## Claim C4 -/

/-- C4: for every one of the 16 event kinds and every argument tuple, the
payload object that `Trace.send_<event>` passes to the corresponding
signal's `send` carries exactly the arguments of that `send_*` call in its
fields (method, url, headers, chunk, response, exception, host as
applicable), unmodified, so the fields a listener observes equal exactly
the arguments of the `send_*` call. -/
theorem trace_payload_fidelity
    {Session Ctx Url Headers Chunk Response Exn ε A : Type}
    (t : Trace Session Ctx Url Headers Chunk Response Exn ε A)
    (method : String) (url : Url) (headers : Headers) (chunk : Chunk)
    (response : Response) (exception : Exn) (host : String) :
    (∀ inv ∈ (t.send_request_start method url headers).invoked,
      inv.payload.method = method ∧ inv.payload.url = url ∧
        inv.payload.headers = headers) ∧
    (∀ inv ∈ (t.send_request_chunk_sent method url chunk).invoked,
      inv.payload.method = method ∧ inv.payload.url = url ∧
        inv.payload.chunk = chunk) ∧
    (∀ inv ∈ (t.send_response_chunk_received method url chunk).invoked,
      inv.payload.method = method ∧ inv.payload.url = url ∧
        inv.payload.chunk = chunk) ∧
    (∀ inv ∈ (t.send_request_end method url headers response).invoked,
      inv.payload.method = method ∧ inv.payload.url = url ∧
        inv.payload.headers = headers ∧ inv.payload.response = response) ∧
    (∀ inv ∈ (t.send_request_exception method url headers exception).invoked,
      inv.payload.method = method ∧ inv.payload.url = url ∧
        inv.payload.headers = headers ∧ inv.payload.exception = exception) ∧
    (∀ inv ∈ (t.send_request_redirect method url headers response).invoked,
      inv.payload.method = method ∧ inv.payload.url = url ∧
        inv.payload.headers = headers ∧ inv.payload.response = response) ∧
    (∀ inv ∈ t.send_connection_queued_start.invoked,
      inv.payload = TraceConnectionQueuedStartParams.mk) ∧
    (∀ inv ∈ t.send_connection_queued_end.invoked,
      inv.payload = TraceConnectionQueuedEndParams.mk) ∧
    (∀ inv ∈ t.send_connection_create_start.invoked,
      inv.payload = TraceConnectionCreateStartParams.mk) ∧
    (∀ inv ∈ t.send_connection_create_end.invoked,
      inv.payload = TraceConnectionCreateEndParams.mk) ∧
    (∀ inv ∈ t.send_connection_reuseconn.invoked,
      inv.payload = TraceConnectionReuseconnParams.mk) ∧
    (∀ inv ∈ (t.send_dns_resolvehost_start host).invoked,
      inv.payload.host = host) ∧
    (∀ inv ∈ (t.send_dns_resolvehost_end host).invoked,
      inv.payload.host = host) ∧
    (∀ inv ∈ (t.send_dns_cache_hit host).invoked,
      inv.payload.host = host) ∧
    (∀ inv ∈ (t.send_dns_cache_miss host).invoked,
      inv.payload.host = host) ∧
    (∀ inv ∈ (t.send_request_headers method url headers).invoked,
      inv.payload.method = method ∧ inv.payload.url = url ∧
        inv.payload.headers = headers) := by
  refine ⟨?_, ?_, ?_, ?_, ?_, ?_, ?_, ?_, ?_, ?_, ?_, ?_, ?_, ?_, ?_, ?_⟩
  all_goals intro inv hinv
  all_goals have h := (Signal.send_observes _ _ _ _ inv hinv).2.2
  all_goals rw [h]
  all_goals first
    | exact ⟨rfl, rfl, rfl, rfl⟩
    | exact ⟨rfl, rfl, rfl⟩

/-- A concrete TraceConfig whose frozen request-start signal holds one
normal listener. -/
def tcOk : TraceConfig Unit Nat String String String String String String Unit :=
  { TraceConfig.init (fun _ => 0) with
    _on_request_start := { listeners := [okStartListener], frozen := true } }

/-- A concrete Trace over `tcOk`. -/
def trOk : Trace Unit Nat String String String String String String Unit :=
  { _trace_config := tcOk, _trace_config_ctx := 9, _session := () }

/-- C4 witness: payload fidelity instantiated on `trOk` with a concrete
send whose single invocation is exhibited explicitly. -/
theorem trace_payload_fidelity_witness :
    (trOk.send_request_start "GET" "http" "hdr").invoked =
      [⟨okStartListener, (), 9, TraceRequestStartParams.mk "GET" "http" "hdr"⟩] ∧
    (∀ inv ∈ (trOk.send_request_start "GET" "http" "hdr").invoked,
      inv.payload.method = "GET" ∧ inv.payload.url = "http" ∧
        inv.payload.headers = "hdr") :=
  ⟨rfl, (trace_payload_fidelity trOk "GET" "http" "hdr" "ck" "rsp" "exn" "hst").1⟩

/-! ## Claim C5 -/

/-- C5: after `TraceConfig.freeze()` returns, every one of the sixteen
signals owned by that TraceConfig is frozen.  `TraceConfig.freeze` is a
single function from configuration to configuration, so the caller
observes either its argument (freeze not yet performed) or its result, in
which all sixteen signals are frozen — no intermediate state is
observable. -/
theorem trace_config_freeze_all_sixteen
    {Session Ctx Url Headers Chunk Response Exn ε A : Type}
    (tc : TraceConfig Session Ctx Url Headers Chunk Response Exn ε A) :
    tc.freeze._on_request_start.frozen = true ∧
    tc.freeze._on_request_chunk_sent.frozen = true ∧
    tc.freeze._on_response_chunk_received.frozen = true ∧
    tc.freeze._on_request_end.frozen = true ∧
    tc.freeze._on_request_exception.frozen = true ∧
    tc.freeze._on_request_redirect.frozen = true ∧
    tc.freeze._on_connection_queued_start.frozen = true ∧
    tc.freeze._on_connection_queued_end.frozen = true ∧
    tc.freeze._on_connection_create_start.frozen = true ∧
    tc.freeze._on_connection_create_end.frozen = true ∧
    tc.freeze._on_connection_reuseconn.frozen = true ∧
    tc.freeze._on_dns_resolvehost_start.frozen = true ∧
    tc.freeze._on_dns_resolvehost_end.frozen = true ∧
    tc.freeze._on_dns_cache_hit.frozen = true ∧
    tc.freeze._on_dns_cache_miss.frozen = true ∧
    tc.freeze._on_request_headers_sent.frozen = true :=
  ⟨rfl, rfl, rfl, rfl, rfl, rfl, rfl, rfl, rfl, rfl, rfl, rfl, rfl, rfl,
    rfl, rfl⟩

/-! ## Claim C6 -/

/-- C6: for one Trace instance, the context passed to the signal's `send`
is the same stored context across all of that Trace's `send_*` calls —
every one of the 16 methods forwards the identical stored
`_trace_config_ctx`, so every listener invocation observes it — and two
distinct Trace instances holding distinct context instances (even over the
same TraceConfig) never pass a shared context instance. -/
theorem trace_context_correlation
    {Session Ctx Url Headers Chunk Response Exn ε A : Type}
    (t t2 : Trace Session Ctx Url Headers Chunk Response Exn ε A)
    (method : String) (url : Url) (headers : Headers) (chunk : Chunk)
    (response : Response) (exception : Exn) (host : String) :
    (∀ inv ∈ (t.send_request_start method url headers).invoked,
      inv.ctx = t._trace_config_ctx) ∧
    (∀ inv ∈ (t.send_request_chunk_sent method url chunk).invoked,
      inv.ctx = t._trace_config_ctx) ∧
    (∀ inv ∈ (t.send_response_chunk_received method url chunk).invoked,
      inv.ctx = t._trace_config_ctx) ∧
    (∀ inv ∈ (t.send_request_end method url headers response).invoked,
      inv.ctx = t._trace_config_ctx) ∧
    (∀ inv ∈ (t.send_request_exception method url headers exception).invoked,
      inv.ctx = t._trace_config_ctx) ∧
    (∀ inv ∈ (t.send_request_redirect method url headers response).invoked,
      inv.ctx = t._trace_config_ctx) ∧
    (∀ inv ∈ t.send_connection_queued_start.invoked,
      inv.ctx = t._trace_config_ctx) ∧
    (∀ inv ∈ t.send_connection_queued_end.invoked,
      inv.ctx = t._trace_config_ctx) ∧
    (∀ inv ∈ t.send_connection_create_start.invoked,
      inv.ctx = t._trace_config_ctx) ∧
    (∀ inv ∈ t.send_connection_create_end.invoked,
      inv.ctx = t._trace_config_ctx) ∧
    (∀ inv ∈ t.send_connection_reuseconn.invoked,
      inv.ctx = t._trace_config_ctx) ∧
    (∀ inv ∈ (t.send_dns_resolvehost_start host).invoked,
      inv.ctx = t._trace_config_ctx) ∧
    (∀ inv ∈ (t.send_dns_resolvehost_end host).invoked,
      inv.ctx = t._trace_config_ctx) ∧
    (∀ inv ∈ (t.send_dns_cache_hit host).invoked,
      inv.ctx = t._trace_config_ctx) ∧
    (∀ inv ∈ (t.send_dns_cache_miss host).invoked,
      inv.ctx = t._trace_config_ctx) ∧
    (∀ inv ∈ (t.send_request_headers method url headers).invoked,
      inv.ctx = t._trace_config_ctx) ∧
    (t._trace_config_ctx ≠ t2._trace_config_ctx →
      ∀ inv1 ∈ (t.send_request_start method url headers).invoked,
        ∀ inv2 ∈ (t2.send_request_start method url headers).invoked,
          inv1.ctx ≠ inv2.ctx) := by
  refine ⟨?_, ?_, ?_, ?_, ?_, ?_, ?_, ?_, ?_, ?_, ?_, ?_, ?_, ?_, ?_, ?_, ?_⟩
  all_goals try
    (intro inv hinv
     exact (Signal.send_observes _ _ _ _ inv hinv).2.1)
  intro hne inv1 h1 inv2 h2
  rw [(Signal.send_observes _ _ _ _ inv1 h1).2.1,
    (Signal.send_observes _ _ _ _ inv2 h2).2.1]
  exact hne

/-- A second concrete Trace over `tcOk` holding a different context. -/
def trOk2 : Trace Unit Nat String String String String String String Unit :=
  { _trace_config := tcOk, _trace_config_ctx := 10, _session := () }

/-- C6 witness: context correlation instantiated on the concrete traces
`trOk` and `trOk2`, which hold distinct contexts. -/
theorem trace_context_correlation_witness :
    (∀ inv ∈ (trOk.send_request_start "GET" "u" "h").invoked,
      inv.ctx = trOk._trace_config_ctx) ∧
    (trOk._trace_config_ctx ≠ trOk2._trace_config_ctx →
      ∀ inv1 ∈ (trOk.send_request_start "GET" "u" "h").invoked,
        ∀ inv2 ∈ (trOk2.send_request_start "GET" "u" "h").invoked,
          inv1.ctx ≠ inv2.ctx) := by
  have h := trace_context_correlation trOk trOk2 "GET" "u" "h" "ck" "rsp" "exn" "hst"
  exact ⟨h.1, h.2.2.2.2.2.2.2.2.2.2.2.2.2.2.2.2⟩

/-! ## Claim C7 -/

/-- C7: the mapping from Trace's `send_*` methods to the signals owned by
its TraceConfig is fixed and total: `sendMethodSignal` (the dispatch table
transcribed from the sixteen method bodies) is a function defined on all
16 methods, distinct methods dispatch on distinct signals (injective), and
every one of the 16 signals is the target of exactly one `send_*` method
(surjective, hence exactly one by injectivity). -/
theorem send_method_signal_bijective : Function.Bijective sendMethodSignal :=
  Function.bijective_iff_has_inverse.mpr
    ⟨signalSendMethod,
      fun m => by cases m <;> rfl,
      fun n => by cases n <;> rfl⟩

/-! ## Claim C8 -/

/-- C8: every call to `TraceConfig.trace_config_ctx` invokes the stored
context factory, passes the caller's per-request seed value through to it
(as the `trace_request_ctx` keyword), and returns exactly what the factory
returns; under a factory that constructs a fresh object per call
(`freshFactory`, with the Python heap threaded explicitly as an allocation
counter), the object returned by a call carries the seed it was given, and
two consecutive calls never return the same instance: their identities
differ. -/
theorem trace_config_ctx_fresh_and_passthrough
    {Session Ctx Url Headers Chunk Response Exn ε A : Type}
    (tc : TraceConfig Session Ctx Url Headers Chunk Response Exn ε A)
    (seed seed2 : Option A) (heap : Nat) :
    tc.trace_config_ctx seed =
      tc._trace_config_ctx_factory [("trace_request_ctx", seed)] ∧
    (trace_config_ctxAlloc freshFactory heap seed).2.2 =
      [("trace_request_ctx", seed)] ∧
    (trace_config_ctxAlloc freshFactory heap seed).2.1 ≠
      (trace_config_ctxAlloc freshFactory
        (trace_config_ctxAlloc freshFactory heap seed).1 seed2).2.1 := by
  refine ⟨rfl, rfl, ?_⟩
  simp only [trace_config_ctxAlloc, freshFactory]
  omega

/-! ## Claim C9 -/

/-- The TraceConfig built without an explicit context factory: the default
factory is `SimpleNamespace` (tracing.py line 52), here at concrete
instantiations of the remaining type parameters. -/
def defaultTraceConfig :
    TraceConfig Unit (SimpleNamespace (Option Unit)) Unit Unit Unit Unit Unit
      Unit Unit :=
  TraceConfig.init SimpleNamespace.ofKwargs

/-- C9 counterexample: the context returned by the default factory is not
an empty namespace.  `trace_config_ctx` (tracing.py line 105) always
passes the `trace_request_ctx` keyword to the factory, so the default
`SimpleNamespace` context carries that one field even when the seed is
omitted (None). -/
theorem default_ctx_not_empty :
    (defaultTraceConfig.trace_config_ctx none).fields ≠ [] ∧
    (defaultTraceConfig.trace_config_ctx none).fields =
      [("trace_request_ctx", none)] := by
  refine ⟨?_, rfl⟩
  decide

/-- C9 amended: when a TraceConfig is constructed without an explicit
context factory, the default factory (`SimpleNamespace`) produces a
namespace whose only field is `trace_request_ctx`, bound to the seed
passed to `trace_config_ctx` (None when the caller omits it). -/
theorem default_ctx_single_field
    {Session Url Headers Chunk Response Exn ε A : Type} (seed : Option A) :
    ((TraceConfig.init SimpleNamespace.ofKwargs :
        TraceConfig Session (SimpleNamespace (Option A)) Url Headers Chunk
          Response Exn ε A).trace_config_ctx seed).fields =
      [("trace_request_ctx", seed)] := rfl

/-! ## Claim C10 -/

/-- C10: for every call `trace_config_ctx(trace_request_ctx)`, the context
factory is invoked with exactly one keyword argument, named
`trace_request_ctx`, whose value is the passed seed (`none` models the
Python default None used when the argument is omitted, tracing.py line
103); consequently with the default `SimpleNamespace` factory the returned
namespace always carries a `trace_request_ctx` field equal to the seed —
in particular equal to None when the seed is omitted. -/
theorem trace_config_ctx_kwargs
    {Session Ctx Url Headers Chunk Response Exn ε A : Type}
    (tc : TraceConfig Session Ctx Url Headers Chunk Response Exn ε A)
    (seed : Option A) :
    tc.trace_config_ctx seed =
      tc._trace_config_ctx_factory [("trace_request_ctx", seed)] ∧
    ((TraceConfig.init SimpleNamespace.ofKwargs :
        TraceConfig Session (SimpleNamespace (Option A)) Url Headers Chunk
          Response Exn ε A).trace_config_ctx seed).fields =
      [("trace_request_ctx", seed)] ∧
    ((TraceConfig.init SimpleNamespace.ofKwargs :
        TraceConfig Session (SimpleNamespace (Option A)) Url Headers Chunk
          Response Exn ε A).trace_config_ctx none).fields =
      [("trace_request_ctx", (none : Option A))] :=
  ⟨rfl, rfl, rfl⟩
